import Mathlib

/-
  Verification of the rockfall-guard risk pipeline.

  The definitions below embed the sensor-reading data model, the primary
  threshold-band risk scorer and the three-level classifier from the
  useSensorData hook, the four-level analytics model, the rolling-window
  update, the reading generator, and the simulated backfill. Real numbers
  of the source are modelled as rationals.
-/

/-- One sensor sample for one mine at one instant. -/
structure SensorReading where
  mine_id : String
  displacement : ℚ
  strain : ℚ
  pore_pressure : ℚ
  rainfall : ℚ
  temperature : ℚ
  dem_slope : ℚ
  crack_score : ℚ
  timestamp : ℚ
deriving Repr, DecidableEq

/-- Displacement band points of the primary scorer (0, 10, 20 or 30). -/
def displacementPoints (d : ℚ) : ℚ :=
  if d > 8 then 30 else if d > 5 then 20 else if d > 3 then 10 else 0

/-- Strain band points of the primary scorer (0, 8, 15 or 25). -/
def strainPoints (s : ℚ) : ℚ :=
  if s > 300 then 25 else if s > 200 then 15 else if s > 150 then 8 else 0

/-- Pore-pressure band points of the primary scorer (0, 6, 12 or 20). -/
def porePressurePoints (p : ℚ) : ℚ :=
  if p > 80 then 20 else if p > 60 then 12 else if p > 45 then 6 else 0

/-- Rainfall band points of the primary scorer (0, 5, 10 or 15). -/
def rainfallPoints (r : ℚ) : ℚ :=
  if r > 50 then 15 else if r > 25 then 10 else if r > 10 then 5 else 0

/-- Primary risk scorer calculateRiskScore: band points per factor plus the
crack score directly, capped at 100 and scaled to 0..1. -/
def calculateRiskScore (reading : SensorReading) : ℚ :=
  min 100
    (displacementPoints reading.displacement + strainPoints reading.strain +
      porePressurePoints reading.pore_pressure + rainfallPoints reading.rainfall +
      reading.crack_score) / 100

/-- Band points as the specification words them: the award for the highest
threshold exceeded, here taken as the maximum over the satisfied bands. -/
def spec_bandPoints (x t1 t2 t3 p1 p2 p3 : ℚ) : ℚ :=
  max (if x > t1 then p1 else 0) (max (if x > t2 then p2 else 0) (if x > t3 then p3 else 0))

/-- Probability as the specification words it: capped sum of per-factor band
awards plus the crack score, divided by 100. -/
def spec_probability (r : SensorReading) : ℚ :=
  min 100
    (spec_bandPoints r.displacement 3 5 8 10 20 30 +
      spec_bandPoints r.strain 150 200 300 8 15 25 +
      spec_bandPoints r.pore_pressure 45 60 80 6 12 20 +
      spec_bandPoints r.rainfall 10 25 50 5 10 15 +
      r.crack_score) / 100

/-- The saturating scenario reading of the specification. -/
def exampleHigh : SensorReading :=
  { mine_id := "m", displacement := 9, strain := 350, pore_pressure := 90,
    rainfall := 60, temperature := 24, dem_slope := 15, crack_score := 10, timestamp := 0 }

/-- The all-zero scenario reading of the specification. -/
def zeroReading : SensorReading :=
  { mine_id := "m", displacement := 0, strain := 0, pore_pressure := 0,
    rainfall := 0, temperature := 0, dem_slope := 0, crack_score := 0, timestamp := 0 }

/-- A reading is valid when every magnitude field is nonnegative and the crack
score lies in the interval from 0 to 10. -/
def ValidReading (r : SensorReading) : Prop :=
  0 ≤ r.displacement ∧ 0 ≤ r.strain ∧ 0 ≤ r.pore_pressure ∧ 0 ≤ r.rainfall ∧
    0 ≤ r.dem_slope ∧ 0 ≤ r.crack_score ∧ r.crack_score ≤ 10

lemma displacementPoints_eq_spec (x : ℚ) :
    displacementPoints x = spec_bandPoints x 3 5 8 10 20 30 := by
  unfold displacementPoints spec_bandPoints
  split_ifs <;> decide

lemma strainPoints_eq_spec (x : ℚ) :
    strainPoints x = spec_bandPoints x 150 200 300 8 15 25 := by
  unfold strainPoints spec_bandPoints
  split_ifs <;> decide

lemma porePressurePoints_eq_spec (x : ℚ) :
    porePressurePoints x = spec_bandPoints x 45 60 80 6 12 20 := by
  unfold porePressurePoints spec_bandPoints
  split_ifs <;> decide

lemma rainfallPoints_eq_spec (x : ℚ) :
    rainfallPoints x = spec_bandPoints x 10 25 50 5 10 15 := by
  unfold rainfallPoints spec_bandPoints
  split_ifs <;> decide

/-- C1: the primary risk scorer returns the capped band-point sum divided by
100, with the band awards of the specification table, and the scenario reading
with displacement 9, strain 350, pore pressure 90, rainfall 60 and crack score
10 collects 100 points, hence probability 1. -/
theorem c1_primary_scorer_formula :
    (∀ r : SensorReading, calculateRiskScore r = spec_probability r) ∧
    calculateRiskScore exampleHigh = 1 := by
  constructor
  · intro r
    unfold calculateRiskScore spec_probability
    rw [displacementPoints_eq_spec, strainPoints_eq_spec, porePressurePoints_eq_spec,
      rainfallPoints_eq_spec]
  · norm_num [calculateRiskScore, exampleHigh, displacementPoints, strainPoints,
      porePressurePoints, rainfallPoints]

lemma displacementPoints_nonneg (x : ℚ) : 0 ≤ displacementPoints x := by
  unfold displacementPoints; split_ifs <;> norm_num

lemma strainPoints_nonneg (x : ℚ) : 0 ≤ strainPoints x := by
  unfold strainPoints; split_ifs <;> norm_num

lemma porePressurePoints_nonneg (x : ℚ) : 0 ≤ porePressurePoints x := by
  unfold porePressurePoints; split_ifs <;> norm_num

lemma rainfallPoints_nonneg (x : ℚ) : 0 ≤ rainfallPoints x := by
  unfold rainfallPoints; split_ifs <;> norm_num

/-- C2: on every valid reading the primary scorer stays within 0..1, and the
all-zero reading scores probability 0. -/
theorem c2_probability_bounds :
    (∀ r : SensorReading, ValidReading r →
      0 ≤ calculateRiskScore r ∧ calculateRiskScore r ≤ 1) ∧
    calculateRiskScore zeroReading = 0 := by
  constructor
  · intro r hv
    unfold ValidReading at hv
    obtain ⟨-, -, -, -, -, hc0, -⟩ := hv
    have hd := displacementPoints_nonneg r.displacement
    have hs := strainPoints_nonneg r.strain
    have hp := porePressurePoints_nonneg r.pore_pressure
    have hr := rainfallPoints_nonneg r.rainfall
    constructor
    · have hsum : (0 : ℚ) ≤
          displacementPoints r.displacement + strainPoints r.strain +
            porePressurePoints r.pore_pressure + rainfallPoints r.rainfall +
            r.crack_score := by linarith
      have hm : (0 : ℚ) ≤ min 100
          (displacementPoints r.displacement + strainPoints r.strain +
            porePressurePoints r.pore_pressure + rainfallPoints r.rainfall +
            r.crack_score) := le_min (by norm_num) hsum
      unfold calculateRiskScore
      linarith
    · have hm : min 100
          (displacementPoints r.displacement + strainPoints r.strain +
            porePressurePoints r.pore_pressure + rainfallPoints r.rainfall +
            r.crack_score) ≤ 100 := min_le_left _ _
      unfold calculateRiskScore
      linarith
  · norm_num [calculateRiskScore, zeroReading, displacementPoints, strainPoints,
      porePressurePoints, rainfallPoints]

/-- C2 witness: the valid all-zero reading instantiates the bounds. -/
theorem c2_probability_bounds_witness :
    ValidReading zeroReading ∧
      (0 ≤ calculateRiskScore zeroReading ∧ calculateRiskScore zeroReading ≤ 1) := by
  refine ⟨?_, c2_probability_bounds.1 zeroReading ?_⟩ <;> · unfold ValidReading; decide

lemma displacementPoints_mono {x y : ℚ} (h : x ≤ y) :
    displacementPoints x ≤ displacementPoints y := by
  unfold displacementPoints
  split_ifs <;> linarith

lemma strainPoints_mono {x y : ℚ} (h : x ≤ y) :
    strainPoints x ≤ strainPoints y := by
  unfold strainPoints
  split_ifs <;> linarith

lemma porePressurePoints_mono {x y : ℚ} (h : x ≤ y) :
    porePressurePoints x ≤ porePressurePoints y := by
  unfold porePressurePoints
  split_ifs <;> linarith

lemma rainfallPoints_mono {x y : ℚ} (h : x ≤ y) :
    rainfallPoints x ≤ rainfallPoints y := by
  unfold rainfallPoints
  split_ifs <;> linarith

lemma score_mono_aux {a1 a2 b1 b2 c1 c2 d1 d2 e1 e2 : ℚ}
    (ha : a1 ≤ a2) (hb : b1 ≤ b2) (hc : c1 ≤ c2) (hd : d1 ≤ d2) (he : e1 ≤ e2) :
    min 100 (a1 + b1 + c1 + d1 + e1) / 100 ≤ min 100 (a2 + b2 + c2 + d2 + e2) / 100 := by
  have h := min_le_min (le_refl (100 : ℚ))
    (by linarith : a1 + b1 + c1 + d1 + e1 ≤ a2 + b2 + c2 + d2 + e2)
  linarith

/-- C3: raising exactly one of the risk-contributing fields, all other fields
held fixed, never lowers the probability of the primary scorer. -/
theorem c3_scorer_monotone (r : SensorReading) (x y : ℚ) (hxy : x ≤ y) :
    calculateRiskScore { r with displacement := x } ≤
        calculateRiskScore { r with displacement := y } ∧
      calculateRiskScore { r with strain := x } ≤
        calculateRiskScore { r with strain := y } ∧
      calculateRiskScore { r with pore_pressure := x } ≤
        calculateRiskScore { r with pore_pressure := y } ∧
      calculateRiskScore { r with rainfall := x } ≤
        calculateRiskScore { r with rainfall := y } ∧
      calculateRiskScore { r with crack_score := x } ≤
        calculateRiskScore { r with crack_score := y } := by
  refine ⟨?_, ?_, ?_, ?_, ?_⟩
  · exact score_mono_aux (displacementPoints_mono hxy) le_rfl le_rfl le_rfl le_rfl
  · exact score_mono_aux le_rfl (strainPoints_mono hxy) le_rfl le_rfl le_rfl
  · exact score_mono_aux le_rfl le_rfl (porePressurePoints_mono hxy) le_rfl le_rfl
  · exact score_mono_aux le_rfl le_rfl le_rfl (rainfallPoints_mono hxy) le_rfl
  · exact score_mono_aux le_rfl le_rfl le_rfl le_rfl hxy

/-- C3 witness: the concrete pair 0 and 9 around the zero reading. -/
theorem c3_scorer_monotone_witness :
    (0 : ℚ) ≤ 9 ∧
      calculateRiskScore { zeroReading with displacement := 0 } ≤
        calculateRiskScore { zeroReading with displacement := 9 } ∧
      calculateRiskScore { zeroReading with strain := 0 } ≤
        calculateRiskScore { zeroReading with strain := 9 } ∧
      calculateRiskScore { zeroReading with pore_pressure := 0 } ≤
        calculateRiskScore { zeroReading with pore_pressure := 9 } ∧
      calculateRiskScore { zeroReading with rainfall := 0 } ≤
        calculateRiskScore { zeroReading with rainfall := 9 } ∧
      calculateRiskScore { zeroReading with crack_score := 0 } ≤
        calculateRiskScore { zeroReading with crack_score := 9 } :=
  ⟨by norm_num, c3_scorer_monotone zeroReading 0 9 (by norm_num)⟩

/-- Three-level classifier shared by the generate-mine-data aggregator, the
prediction panel and the live risk display. -/
def riskLevel (p : ℚ) : String :=
  if p > 0.7 then "high" else if p > 0.4 then "medium" else "low"

/-- C4: the three-level classifier uses strict comparisons at 0.4 and 0.7:
high exactly above 0.7, medium exactly on the half-open band from 0.4
exclusive to 0.7 inclusive, low exactly at or below 0.4; in particular a
probability of exactly 0.4 is classified low. -/
theorem c4_classification_boundaries (p : ℚ) :
    (riskLevel p = "high" ↔ 0.7 < p) ∧
      (riskLevel p = "medium" ↔ 0.4 < p ∧ p ≤ 0.7) ∧
      (riskLevel p = "low" ↔ p ≤ 0.4) ∧
      riskLevel 0.4 = "low" := by
  refine ⟨?_, ?_, ?_, by norm_num [riskLevel]⟩
  · unfold riskLevel
    split_ifs with h1 h2
    · exact iff_of_true rfl h1
    · exact iff_of_false (by decide) h1
    · exact iff_of_false (by decide) h1
  · unfold riskLevel
    split_ifs with h1 h2
    · exact iff_of_false (by decide) (fun hc => not_le.mpr h1 hc.2)
    · exact iff_of_true rfl ⟨h2, le_of_not_lt h1⟩
    · exact iff_of_false (by decide) (fun hc => h2 hc.1)
  · unfold riskLevel
    split_ifs with h1 h2
    · exact iff_of_false (by decide) (fun hc => absurd h1 (not_lt.mpr (hc.trans (by norm_num))))
    · exact iff_of_false (by decide) (fun hc => absurd h2 (not_lt.mpr hc))
    · exact iff_of_true rfl (le_of_not_lt h2)

/-- One window update: keep at most the last 49 entries of the previous
window (the slice with argument minus 49) and append the new reading, as in
updateSensorData and the live-mode insert handler. -/
def windowAppend (w : List SensorReading) (r : SensorReading) : List SensorReading :=
  w.drop (w.length - 49) ++ [r]

/-- A run of window updates over a stream of arriving readings. -/
def windowRun (w : List SensorReading) (rs : List SensorReading) : List SensorReading :=
  rs.foldl windowAppend w

/-- The window entries carry non-decreasing timestamps. -/
def TimestampSorted (w : List SensorReading) : Prop :=
  List.Pairwise (fun a b => a.timestamp ≤ b.timestamp) w

lemma windowAppend_length_le (w : List SensorReading) (r : SensorReading) :
    (windowAppend w r).length ≤ 50 := by
  simp only [windowAppend, List.length_append, List.length_drop, List.length_singleton]
  omega

lemma windowAppend_suffix (w : List SensorReading) (r : SensorReading) :
    windowAppend w r <:+ w ++ [r] :=
  ⟨w.take (w.length - 49), by
    simp only [windowAppend, ← List.append_assoc, List.take_append_drop]⟩

lemma suffix_append_same {α : Type} {s t : List α} (u : List α) (h : s <:+ t) :
    s ++ u <:+ t ++ u := by
  obtain ⟨c, rfl⟩ := h
  exact ⟨c, (List.append_assoc c s u).symm⟩

lemma windowRun_suffix (rs : List SensorReading) :
    ∀ w : List SensorReading, windowRun w rs <:+ w ++ rs := by
  induction rs with
  | nil => intro w; simp [windowRun]
  | cons r rs ih =>
      intro w
      have h2 := ih (windowAppend w r)
      have h3 : windowAppend w r ++ rs <:+ (w ++ [r]) ++ rs :=
        suffix_append_same rs (windowAppend_suffix w r)
      have h4 : windowRun w (r :: rs) = windowRun (windowAppend w r) rs := rfl
      rw [h4]
      refine h2.trans (h3.trans ?_)
      simp [List.append_assoc]

lemma windowRun_length_le (rs : List SensorReading) :
    ∀ w : List SensorReading, w.length ≤ 50 → (windowRun w rs).length ≤ 50 := by
  induction rs with
  | nil => intro w h; simpa [windowRun] using h
  | cons r rs ih =>
      intro w _
      exact ih (windowAppend w r) (windowAppend_length_le w r)

/-- Seven independent draws of the random source for one generated reading. -/
structure RandVec where
  u1 : ℚ
  u2 : ℚ
  u3 : ℚ
  u4 : ℚ
  u5 : ℚ
  u6 : ℚ
  u7 : ℚ
deriving Repr, DecidableEq

/-- The javascript or-else on an optional numeric field: an absent record and
a zero field both fall back to the default, since 0 is falsy. -/
def jsOrNum (x : Option ℚ) (dflt : ℚ) : ℚ :=
  match x with
  | none => dflt
  | some v => if v = 0 then dflt else v

/-- The javascript or-else on an optional identifier: absent and empty are
both falsy. -/
def jsOrStr (x : Option String) (dflt : String) : String :=
  match x with
  | none => dflt
  | some s => if s = "" then dflt else s

/-- Reading generator generateSensorReading of the sensor-data hook: every
field starts from the previous value, or from its baseline when absent or
zero, gets a bounded perturbation, and all fields but temperature are
clamped. -/
def generateSensorReading (mineId : Option String) (baseValues : Option SensorReading)
    (u : RandVec) (now : ℚ) : SensorReading :=
  { mine_id := jsOrStr mineId "default-mine",
    displacement :=
      max 0 (jsOrNum (baseValues.map SensorReading.displacement) 2.5 + (u.u1 - 0.5) * 0.8),
    strain :=
      max 0 (jsOrNum (baseValues.map SensorReading.strain) 150 + (u.u2 - 0.5) * 30),
    pore_pressure :=
      max 0 (jsOrNum (baseValues.map SensorReading.pore_pressure) 45 + (u.u3 - 0.5) * 8),
    rainfall :=
      max 0 (jsOrNum (baseValues.map SensorReading.rainfall) 5 + (u.u4 - 0.3) * 15),
    temperature :=
      jsOrNum (baseValues.map SensorReading.temperature) 24 + (u.u5 - 0.5) * 4,
    dem_slope :=
      max 0 (jsOrNum (baseValues.map SensorReading.dem_slope) 15.5 + (u.u6 - 0.5) * 0.5),
    crack_score :=
      max 0 (min 10 (jsOrNum (baseValues.map SensorReading.crack_score) 3 + (u.u7 - 0.5) * 2)),
    timestamp := now }

/-- C9: every generated reading has nonnegative displacement, strain, pore
pressure, rainfall and slope and a crack score between 0 and 10, for every
previous reading and every random draw, while the temperature field carries
no clamp: some draw makes it negative. -/
theorem c9_generator_clamps :
    (∀ (mid : Option String) (bv : Option SensorReading) (u : RandVec) (now : ℚ),
      0 ≤ (generateSensorReading mid bv u now).displacement ∧
        0 ≤ (generateSensorReading mid bv u now).strain ∧
        0 ≤ (generateSensorReading mid bv u now).pore_pressure ∧
        0 ≤ (generateSensorReading mid bv u now).rainfall ∧
        0 ≤ (generateSensorReading mid bv u now).dem_slope ∧
        0 ≤ (generateSensorReading mid bv u now).crack_score ∧
        (generateSensorReading mid bv u now).crack_score ≤ 10) ∧
    (∃ (mid : Option String) (bv : Option SensorReading) (u : RandVec) (now : ℚ),
      (generateSensorReading mid bv u now).temperature < 0) := by
  constructor
  · intro mid bv u now
    refine ⟨le_max_left 0 _, le_max_left 0 _, le_max_left 0 _, le_max_left 0 _,
      le_max_left 0 _, le_max_left 0 _, ?_⟩
    exact max_le (by norm_num) (min_le_left 10 _)
  · refine ⟨none, none, ⟨0, 0, 0, 0, -100, 0, 0⟩, 0, ?_⟩
    norm_num [generateSensorReading, jsOrNum]

/-- C10: a zero field of the previous reading is treated like an absent one
by the falsy or-else, so the generator perturbs the fixed baseline constant
for that field instead of random-walking from zero. -/
theorem c10_zero_field_baseline (mid : Option String) (prev : SensorReading)
    (u : RandVec) (now : ℚ) :
    (prev.displacement = 0 →
      (generateSensorReading mid (some prev) u now).displacement =
        max 0 (2.5 + (u.u1 - 0.5) * 0.8)) ∧
    (prev.strain = 0 →
      (generateSensorReading mid (some prev) u now).strain =
        max 0 (150 + (u.u2 - 0.5) * 30)) ∧
    (prev.pore_pressure = 0 →
      (generateSensorReading mid (some prev) u now).pore_pressure =
        max 0 (45 + (u.u3 - 0.5) * 8)) ∧
    (prev.rainfall = 0 →
      (generateSensorReading mid (some prev) u now).rainfall =
        max 0 (5 + (u.u4 - 0.3) * 15)) ∧
    (prev.temperature = 0 →
      (generateSensorReading mid (some prev) u now).temperature =
        24 + (u.u5 - 0.5) * 4) ∧
    (prev.dem_slope = 0 →
      (generateSensorReading mid (some prev) u now).dem_slope =
        max 0 (15.5 + (u.u6 - 0.5) * 0.5)) ∧
    (prev.crack_score = 0 →
      (generateSensorReading mid (some prev) u now).crack_score =
        max 0 (min 10 (3 + (u.u7 - 0.5) * 2))) := by
  refine ⟨?_, ?_, ?_, ?_, ?_, ?_, ?_⟩ <;>
    · intro h0
      simp [generateSensorReading, jsOrNum, h0]

/-- A concrete random draw with every component equal to one. -/
def randOne : RandVec := ⟨1, 1, 1, 1, 1, 1, 1⟩

/-- C10 witness: the all-zero previous reading at a concrete random draw. -/
theorem c10_zero_field_baseline_witness :
    (generateSensorReading none (some zeroReading) randOne 0).displacement =
        max 0 (2.5 + ((1 : ℚ) - 0.5) * 0.8) ∧
      (generateSensorReading none (some zeroReading) randOne 0).strain =
        max 0 (150 + ((1 : ℚ) - 0.5) * 30) ∧
      (generateSensorReading none (some zeroReading) randOne 0).pore_pressure =
        max 0 (45 + ((1 : ℚ) - 0.5) * 8) ∧
      (generateSensorReading none (some zeroReading) randOne 0).rainfall =
        max 0 (5 + ((1 : ℚ) - 0.3) * 15) ∧
      (generateSensorReading none (some zeroReading) randOne 0).temperature =
        24 + ((1 : ℚ) - 0.5) * 4 ∧
      (generateSensorReading none (some zeroReading) randOne 0).dem_slope =
        max 0 (15.5 + ((1 : ℚ) - 0.5) * 0.5) ∧
      (generateSensorReading none (some zeroReading) randOne 0).crack_score =
        max 0 (min 10 (3 + ((1 : ℚ) - 0.5) * 2)) := by
  have h := c10_zero_field_baseline none zeroReading randOne 0
  exact ⟨h.1 rfl, h.2.1 rfl, h.2.2.1 rfl, h.2.2.2.1 rfl, h.2.2.2.2.1 rfl,
    h.2.2.2.2.2.1 rfl, h.2.2.2.2.2.2 rfl⟩

/-- Simulated backfill generateSimulatedData: the loop index runs from 24
down to 0, one generated reading per hour, each stamped that many hours
before now (milliseconds). -/
def generateSimulatedData (mid : Option String) (us : Nat → RandVec) (now : ℚ) :
    List SensorReading :=
  (List.range 25).map fun k =>
    { generateSensorReading mid none (us k) 0 with
        timestamp := now - ((24 - k : ℕ) : ℚ) * 3600000 }

/-- C6 counterexample: the backfill loop includes both endpoints 24 and 0, so
it produces 25 readings, not 24. -/
theorem c6_backfill_count_counterexample :
    ¬ (generateSimulatedData none (fun _ => randOne) 0).length = 24 := by
  simp [generateSimulatedData]

/-- C6 amended: starting a session in simulated mode backfills exactly 25
hourly readings, stamped from 24 hours before now through now, to seed the
window. -/
theorem c6_backfill_25_hourly (mid : Option String) (us : Nat → RandVec) (now : ℚ) :
    (generateSimulatedData mid us now).length = 25 ∧
      (generateSimulatedData mid us now).map (fun r => r.timestamp) =
        (List.range 25).map (fun k => now - ((24 - k : ℕ) : ℚ) * 3600000) := by
  constructor
  · simp [generateSimulatedData]
  · simp [generateSimulatedData, List.map_map]

/-- Session state surfaced by the sensor-data hook in live mode. -/
structure SessionState where
  sensorData : List SensorReading
  currentReading : Option SensorReading
  isLoading : Bool
deriving Repr, DecidableEq

/-- Live fetch handler fetchLiveSensorData: a fetch error (none) or an empty
row set leaves the window untouched and only clears the loading flag; only a
non-empty result replaces the window and the current reading. -/
def applyLiveFetchResult (st : SessionState) (result : Option (List SensorReading)) :
    SessionState :=
  match result with
  | none => { st with isLoading := false }
  | some data =>
      if 0 < data.length then
        { sensorData := data, currentReading := data.head?, isLoading := false }
      else
        { st with isLoading := false }

/-- The initial live-mode session before the first fetch answer. -/
def initialSession : SessionState :=
  { sensorData := [], currentReading := none, isLoading := true }

/-- C7: on an empty live result the handler only clears the loading flag and
leaves the window exactly as it was, here empty: no generator output is
placed in the window, contrary to the announced fallback to simulated data
(it does remain free of any error state). -/
theorem c7_empty_fetch_leaves_window_empty :
    applyLiveFetchResult initialSession (some []) =
      { sensorData := [], currentReading := none, isLoading := false } ∧
    (applyLiveFetchResult initialSession (some [])).sensorData = [] := by
  constructor <;> rfl

/-- C5 counterexample: the live fetch orders rows newest-first and the
handler stores them unchanged, so one non-empty live update already leaves
the window with strictly decreasing timestamps, ordered by non-decreasing
timestamp is false. -/
theorem c5_live_order_counterexample :
    ¬ TimestampSorted
      (applyLiveFetchResult initialSession
        (some [{ zeroReading with timestamp := 1 }, zeroReading])).sensorData := by
  intro h
  have hh : ({ zeroReading with timestamp := (1 : ℚ) }).timestamp ≤ zeroReading.timestamp :=
    (List.pairwise_cons.mp h).1 zeroReading (List.mem_singleton.mpr rfl)
  norm_num [zeroReading] at hh

/-- C5 amended: in either mode any run of window updates from a seed of at
most 50 entries leaves at most 50 entries and keeps a suffix of the full
arrival stream (oldest entries are the ones evicted); timestamps are
non-decreasing whenever seed and arrivals are so ordered, which is the
simulated-mode generation order, while a non-empty live fetch instead stores
the fetched rows unchanged, in the newest-first order the store returns. -/
theorem c5_window_capacity_and_order (w rs : List SensorReading)
    (hlen : w.length ≤ 50) :
    (windowRun w rs).length ≤ 50 ∧
      windowRun w rs <:+ w ++ rs ∧
      (TimestampSorted (w ++ rs) → TimestampSorted (windowRun w rs)) ∧
      (∀ (st : SessionState) (data : List SensorReading), data ≠ [] →
        (applyLiveFetchResult st (some data)).sensorData = data) := by
  refine ⟨windowRun_length_le rs w hlen, windowRun_suffix rs w, ?_, ?_⟩
  · intro hsort
    exact hsort.sublist ((windowRun_suffix rs w).sublist)
  · intro st data hne
    have hmatch : applyLiveFetchResult st (some data) =
        if 0 < data.length then
          { sensorData := data, currentReading := data.head?, isLoading := false }
        else { st with isLoading := false } := rfl
    rw [hmatch, if_pos (List.length_pos.mpr hne)]

/-- C5 witness: the empty window with one arriving reading, plus one
non-empty live fetch. -/
theorem c5_window_capacity_and_order_witness :
    ([] : List SensorReading).length ≤ 50 ∧
      TimestampSorted ([] ++ [zeroReading]) ∧
      (windowRun [] [zeroReading]).length ≤ 50 ∧
      windowRun [] [zeroReading] <:+ [] ++ [zeroReading] ∧
      TimestampSorted (windowRun [] [zeroReading]) ∧
      (applyLiveFetchResult initialSession (some [zeroReading])).sensorData =
        [zeroReading] := by
  have h := c5_window_capacity_and_order [] [zeroReading] (by simp)
  exact ⟨by simp, by simp [TimestampSorted], h.1, h.2.1,
    h.2.2.1 (by simp [TimestampSorted]),
    h.2.2.2 initialSession [zeroReading] (by simp)⟩

/-- Secondary analytics risk score of the batch path: weighted fractions of
assumed maxima. -/
def analyticsRiskScore (r : SensorReading) : ℚ :=
  (r.displacement / 20) * 0.25 + (r.strain / 500) * 0.20 + (r.pore_pressure / 100) * 0.15 +
    (r.rainfall / 100) * 0.15 + (r.temperature / 50) * 0.10 + (r.dem_slope / 90) * 0.10 +
    (r.crack_score / 10) * 0.05

/-- Four-level band split of the analytics path. -/
def analyticsRiskLevel (s : ℚ) : String :=
  if s > 0.7 then "high" else if s > 0.5 then "medium" else if s > 0.3 then "low"
    else "very_low"

/-- Weighted-fraction sum as the specification words it: fractions of the
assumed maxima 20, 500, 100, 100, 50, 90 and 10, weighted by 0.25, 0.20,
0.15, 0.15, 0.10, 0.10 and 0.05. -/
def spec_weightedFractionScore (r : SensorReading) : ℚ :=
  0.25 * (r.displacement / 20) + 0.20 * (r.strain / 500) + 0.15 * (r.pore_pressure / 100) +
    0.15 * (r.rainfall / 100) + 0.10 * (r.temperature / 50) + 0.10 * (r.dem_slope / 90) +
    0.05 * (r.crack_score / 10)

/-- C8: the batch-analytics model is the weighted-fraction sum over the seven
fields with the stated maxima and weights, split at 0.7, 0.5 and 0.3 into
four bands by strict comparisons. -/
theorem c8_analytics_model :
    (∀ r : SensorReading, analyticsRiskScore r = spec_weightedFractionScore r) ∧
    (∀ s : ℚ,
      (analyticsRiskLevel s = "high" ↔ 0.7 < s) ∧
      (analyticsRiskLevel s = "medium" ↔ 0.5 < s ∧ s ≤ 0.7) ∧
      (analyticsRiskLevel s = "low" ↔ 0.3 < s ∧ s ≤ 0.5) ∧
      (analyticsRiskLevel s = "very_low" ↔ s ≤ 0.3)) := by
  constructor
  · intro r
    unfold analyticsRiskScore spec_weightedFractionScore
    ring
  · intro s
    refine ⟨?_, ?_, ?_, ?_⟩ <;> unfold analyticsRiskLevel
    · split_ifs with h1 h2 h3
      · exact iff_of_true rfl h1
      · exact iff_of_false (by decide) h1
      · exact iff_of_false (by decide) h1
      · exact iff_of_false (by decide) h1
    · split_ifs with h1 h2 h3
      · exact iff_of_false (by decide) (fun hc => not_le.mpr h1 hc.2)
      · exact iff_of_true rfl ⟨h2, le_of_not_lt h1⟩
      · exact iff_of_false (by decide) (fun hc => h2 hc.1)
      · exact iff_of_false (by decide) (fun hc => h2 hc.1)
    · split_ifs with h1 h2 h3
      · exact iff_of_false (by decide)
          (fun hc => absurd h1 (not_lt.mpr (hc.2.trans (by norm_num))))
      · exact iff_of_false (by decide) (fun hc => not_le.mpr h2 hc.2)
      · exact iff_of_true rfl ⟨h3, le_of_not_lt h2⟩
      · exact iff_of_false (by decide) (fun hc => h3 hc.1)
    · split_ifs with h1 h2 h3
      · exact iff_of_false (by decide)
          (fun hc => absurd h1 (not_lt.mpr (hc.trans (by norm_num))))
      · exact iff_of_false (by decide)
          (fun hc => absurd h2 (not_lt.mpr (hc.trans (by norm_num))))
      · exact iff_of_false (by decide) (fun hc => absurd h3 (not_lt.mpr hc))
      · exact iff_of_true rfl (le_of_not_lt h3)
